import Mathlib

/-
  Shallow embedding of the configuration-persistence subsystem of the
  MXChip AZ3166 firmware (src/MXChip/AZ3166/app/config_manager.c, HEAD
  revision with FLASH_OPERATIONS_DISABLED = 1, USE_EEPROM_EMULATION = 1,
  USE_DELAYED_FLASH_WRITE = 0), together with its caller
  init_device_configuration (src/MXChip/AZ3166/app/main.c).

  Strings (char arrays) are modelled as `List Char` holding the bytes up
  to but excluding the null terminator; machine integers are `Nat` with
  explicit reductions modulo 2^w where the C code truncates.
-/

namespace AZ3166

-- Constants from config_manager.c / config_manager.h / azure_config.h
def CONFIG_MAGIC : Nat := 0xDEADBEEF
def CONFIG_VERSION : Nat := 1
def CONFIG_SSID_MAX_LEN : Nat := 64
def CONFIG_PASSWORD_MAX_LEN : Nat := 64
def CONFIG_HOSTNAME_MAX_LEN : Nat := 64
def CONFIG_USERNAME_MAX_LEN : Nat := 32
def CONFIG_CLIENT_ID_MAX_LEN : Nat := 64
def CONFIG_LINE_MAX_LEN : Nat := 256
def DEFAULT_TELEMETRY_INTERVAL : Nat := 10

/-- The persisted configuration record `device_config_t` of
config_manager.h.  Char-array fields hold the logical string (bytes
before the terminator). -/
structure device_config_t where
  magic : Nat
  version : Nat
  wifi_ssid : List Char
  wifi_password : List Char
  wifi_mode : Nat
  mqtt_hostname : List Char
  mqtt_port : Nat
  mqtt_client_id : List Char
  mqtt_username : List Char
  mqtt_password : List Char
  telemetry_interval : Nat
  crc32 : Nat
deriving DecidableEq, Repr

/-- The `config_result_t` enumeration of config_manager.h. -/
inductive config_result_t where
  | CONFIG_OK
  | CONFIG_ERROR_FLASH
  | CONFIG_ERROR_INVALID
  | CONFIG_ERROR_CORRUPTED
  | CONFIG_ERROR_NOT_FOUND
  | CONFIG_ERROR_STORAGE
deriving DecidableEq, Repr

open config_result_t

/-- An all-zero record: the result of `memset(&c, 0, sizeof c)`. -/
def zero_config : device_config_t :=
  { magic := 0, version := 0, wifi_ssid := [], wifi_password := [],
    wifi_mode := 0, mqtt_hostname := [], mqtt_port := 0,
    mqtt_client_id := [], mqtt_username := [], mqtt_password := [],
    telemetry_interval := 0, crc32 := 0 }

-- ---------------------------------------------------------------------
-- CRC32 (calculate_crc32 in config_manager.c): bit-shift CRC-32 with
-- polynomial 0xEDB88320, initial value 0xFFFFFFFF, final inversion.
-- ---------------------------------------------------------------------

def crc32_step (crc : Nat) : Nat :=
  if crc % 2 = 1 then Nat.xor (crc / 2) 0xEDB88320 else crc / 2

def crc32_byte (crc b : Nat) : Nat := crc32_step^[8] (Nat.xor crc b)

def calculate_crc32 (data : List Nat) : Nat :=
  Nat.xor (data.foldl crc32_byte 0xFFFFFFFF) 0xFFFFFFFF

-- ---------------------------------------------------------------------
-- trim_string (config_manager.c): trims leading spaces/tabs, then
-- trailing spaces/tabs/CR/LF, but — because of the `end > start` guard —
-- never removes the first remaining character.
-- ---------------------------------------------------------------------

def isLeadWS (c : Char) : Bool := c = ' ' ∨ c = '\t'

def isTrailWS (c : Char) : Bool := c = ' ' ∨ c = '\t' ∨ c = '\r' ∨ c = '\n'

def trim_string (s : List Char) : List Char :=
  match s.dropWhile isLeadWS with
  | [] => []
  | c :: rest => c :: ((rest.reverse.dropWhile isTrailWS).reverse)

-- ---------------------------------------------------------------------
-- atoi as used by parse_config_file / read_int_from_serial, with the
-- unsigned casts the call sites perform.
-- ---------------------------------------------------------------------

def isCSpace (c : Char) : Bool :=
  c = ' ' ∨ c = '\t' ∨ c = '\n' ∨ c = '\x0b' ∨ c = '\x0c' ∨ c = '\r'

def digitsVal : List Char → Nat → Nat
  | [], acc => acc
  | c :: cs, acc =>
      if '0' ≤ c ∧ c ≤ '9' then digitsVal cs (acc * 10 + (c.toNat - 48)) else acc

def atoiChars (s : List Char) : Int :=
  match s.dropWhile isCSpace with
  | '-' :: rest => - (digitsVal rest 0 : Int)
  | '+' :: rest => (digitsVal rest 0 : Int)
  | rest => (digitsVal rest 0 : Int)

def atoi_u32 (s : List Char) : Nat := ((atoiChars s) % (2 ^ 32 : Int)).toNat

def atoi_u16 (s : List Char) : Nat := ((atoiChars s) % (2 ^ 16 : Int)).toNat

-- ---------------------------------------------------------------------
-- parse_config_file (config_manager.c): split the blob into lines of at
-- most CONFIG_LINE_MAX_LEN - 1 = 255 characters (a longer run is chopped
-- into successive lines), then process each line in order.
-- ---------------------------------------------------------------------

def splitCLinesAux (cur : List Char) : List Char → List (List Char)
  | [] => [cur.reverse]
  | c :: cs =>
      if c = '\n' then
        cur.reverse ::
          (match cs with
           | [] => []
           | c2 :: cs2 => splitCLinesAux [] (c2 :: cs2))
      else if cur.length < 255 then splitCLinesAux (c :: cur) cs
      else cur.reverse :: splitCLinesAux [c] cs

def splitCLines : List Char → List (List Char)
  | [] => []
  | c :: cs => splitCLinesAux [] (c :: cs)

/-- `strchr(line, '=')`: split at the first `=`; `none` when absent. -/
def strchrEq : List Char → Option (List Char × List Char)
  | [] => none
  | c :: cs =>
      if c = '=' then some ([], cs)
      else (strchrEq cs).map (fun p => (c :: p.1, p.2))

def known_config_keys : List (List Char) :=
  ["wifi_ssid".data, "wifi_password".data, "wifi_mode".data,
   "mqtt_hostname".data, "mqtt_port".data, "mqtt_client_id".data,
   "mqtt_username".data, "mqtt_password".data, "telemetry_interval".data]

/-- The key-dispatch chain of parse_config_file applied to an already
trimmed key and value: known keys are applied (strncpy bounded to
capacity - 1, integer keys through atoi with the call site's cast),
unknown keys only log a warning and change nothing. -/
def applyConfigKV (cfg : device_config_t) (key value : List Char) : device_config_t :=
  if key = "wifi_ssid".data then
    { cfg with wifi_ssid := value.take (CONFIG_SSID_MAX_LEN - 1) }
  else if key = "wifi_password".data then
    { cfg with wifi_password := value.take (CONFIG_PASSWORD_MAX_LEN - 1) }
  else if key = "wifi_mode".data then
    { cfg with wifi_mode := atoi_u32 value }
  else if key = "mqtt_hostname".data then
    { cfg with mqtt_hostname := value.take (CONFIG_HOSTNAME_MAX_LEN - 1) }
  else if key = "mqtt_port".data then
    { cfg with mqtt_port := atoi_u16 value }
  else if key = "mqtt_client_id".data then
    { cfg with mqtt_client_id := value.take (CONFIG_CLIENT_ID_MAX_LEN - 1) }
  else if key = "mqtt_username".data then
    { cfg with mqtt_username := value.take (CONFIG_USERNAME_MAX_LEN - 1) }
  else if key = "mqtt_password".data then
    { cfg with mqtt_password := value.take (CONFIG_PASSWORD_MAX_LEN - 1) }
  else if key = "telemetry_interval".data then
    { cfg with telemetry_interval := atoi_u32 value }
  else cfg

/-- The body of the parse loop of parse_config_file for one extracted
line: trim, skip blank lines and comment lines, split at the first `=`,
trim key and value, and dispatch on the key.  A line without `=` only
logs a warning and changes nothing. -/
def applyConfigLine (cfg : device_config_t) (rawLine : List Char) : device_config_t :=
  let line := trim_string rawLine
  if line.length = 0 then cfg
  else if line.headD ' ' = '#' then cfg
  else
    match strchrEq line with
    | none => cfg
    | some (k, v) => applyConfigKV cfg (trim_string k) (trim_string v)

def parse_lines (cfg : device_config_t) (ls : List (List Char)) : device_config_t :=
  ls.foldl applyConfigLine cfg

def parse_config_file (cfg : device_config_t) (content : List Char) : device_config_t :=
  parse_lines cfg (splitCLines content)

-- ---------------------------------------------------------------------
-- Defaults provider: compiled-in fallback constants from azure_config.h
-- applied first (config_manager_get_defaults), then the embedded
-- device.conf blob parsed on top (load_config_file_defaults).
-- ---------------------------------------------------------------------

/-- The embedded_device_conf blob of config_manager.c, verbatim. -/
def embedded_device_conf : List Char :=
  ("# MXChip AZ3166 Device Configuration File\n" ++
   "# This file contains default configuration values that will be loaded at startup\n" ++
   "# Lines starting with # are comments and will be ignored\n" ++
   "# Format: key=value (no spaces around =)\n" ++
   "\n" ++
   "# WiFi Configuration\n" ++
   "wifi_ssid=MyWiFiNetwork\n" ++
   "wifi_password=MyWiFiPassword\n" ++
   "wifi_mode=3\n" ++
   "\n" ++
   "# MQTT Broker Configuration\n" ++
   "mqtt_hostname=mqtt.dcasati.net\n" ++
   "mqtt_port=1883\n" ++
   "mqtt_client_id=mxchip-device-001\n" ++
   "mqtt_username=\n" ++
   "mqtt_password=\n" ++
   "\n" ++
   "# Telemetry Configuration\n" ++
   "telemetry_interval=10\n").data

/-- The record config_manager_get_defaults builds before it parses the
embedded blob: memset to zero, magic and version stamped, then the
*_DEFAULT compiled-in constants of azure_config.h copied in with
strncpy bounded to capacity - 1 (WIFI_MODE_DEFAULT = WPA2_PSK_AES = 3,
MQTT_USERNAME_DEFAULT and MQTT_PASSWORD_DEFAULT are empty). -/
def fallback_defaults : device_config_t :=
  { zero_config with
    magic := CONFIG_MAGIC, version := CONFIG_VERSION,
    wifi_ssid := "MYWIFI".data.take (CONFIG_SSID_MAX_LEN - 1),
    wifi_password := "MYPASS".data.take (CONFIG_PASSWORD_MAX_LEN - 1),
    wifi_mode := 3,
    mqtt_hostname := "mqtt.dcasati.net".data.take (CONFIG_HOSTNAME_MAX_LEN - 1),
    mqtt_port := 1883,
    mqtt_client_id := "mxchip-client-123456".data.take (CONFIG_CLIENT_ID_MAX_LEN - 1),
    mqtt_username := [],
    mqtt_password := [],
    telemetry_interval := DEFAULT_TELEMETRY_INTERVAL }

/-- config_manager_get_defaults with the blob abstracted: fallback
constants first, blob parsed on top (per-field override). The real
function is this applied to embedded_device_conf. -/
def config_manager_get_defaults_from (blob : List Char) : device_config_t :=
  parse_config_file fallback_defaults blob

/-- config_manager_get_defaults (HEAD revision, config_manager.c): the
fallback constants overridden per key by the embedded device.conf. -/
def config_manager_get_defaults : device_config_t :=
  config_manager_get_defaults_from embedded_device_conf

-- ---------------------------------------------------------------------
-- Validation tiers.
-- ---------------------------------------------------------------------

/-- validate_config (config_manager.c, operational tier): non-empty
wifi_ssid, mqtt_hostname, mqtt_client_id and telemetry interval within
[1, 3600]; a null pointer fails. -/
def validate_config : Option device_config_t → Bool
  | none => false
  | some c =>
      if c.wifi_ssid.length = 0 then false
      else if c.mqtt_hostname.length = 0 then false
      else if c.mqtt_client_id.length = 0 then false
      else if c.telemetry_interval < 1 ∨ c.telemetry_interval > 3600 then false
      else true

/-- config_manager_validate (config_manager.c, structural tier): null
fails; otherwise only magic and version are checked ("basic validation
without CRC"). -/
def config_manager_validate : Option device_config_t → Bool
  | none => false
  | some c =>
      if c.magic ≠ CONFIG_MAGIC ∨ c.version ≠ CONFIG_VERSION then false
      else true

-- ---------------------------------------------------------------------
-- Byte layout of device_config_t on the medium (little-endian words,
-- char arrays padded with zero bytes, 2 padding bytes before the
-- 4-aligned telemetry_interval, crc32 last; sizeof = 376, and
-- sizeof - sizeof(uint32_t) = 372 bytes are covered by the digest).
-- ---------------------------------------------------------------------

def le32 (n : Nat) : List Nat :=
  [n % 256, n / 256 % 256, n / 65536 % 256, n / 16777216 % 256]

def le16 (n : Nat) : List Nat := [n % 256, n / 256 % 256]

def fieldBytes (s : List Char) (cap : Nat) : List Nat :=
  ((s.map Char.toNat) ++ List.replicate cap 0).take cap

def configBytes (c : device_config_t) : List Nat :=
  le32 c.magic ++ le32 c.version ++
  fieldBytes c.wifi_ssid 64 ++ fieldBytes c.wifi_password 64 ++
  le32 c.wifi_mode ++ fieldBytes c.mqtt_hostname 64 ++ le16 c.mqtt_port ++
  fieldBytes c.mqtt_client_id 64 ++ fieldBytes c.mqtt_username 32 ++
  fieldBytes c.mqtt_password 64 ++ [0, 0] ++ le32 c.telemetry_interval

def configBytesFull (c : device_config_t) : List Nat :=
  configBytes c ++ le32 c.crc32

def CONFIG_STRUCT_SIZE : Nat := 376

def rdByte (bs : List Nat) (i : Nat) : Nat := bs.getD i 0

def rd32 (bs : List Nat) (off : Nat) : Nat :=
  rdByte bs off + 256 * rdByte bs (off + 1) +
  65536 * rdByte bs (off + 2) + 16777216 * rdByte bs (off + 3)

def rd16 (bs : List Nat) (off : Nat) : Nat :=
  rdByte bs off + 256 * rdByte bs (off + 1)

def rdStr (bs : List Nat) (off cap : Nat) : List Char :=
  (((bs.drop off).take cap).takeWhile (fun b => b ≠ 0)).map Char.ofNat

/-- What `memcpy(config, flash_region, sizeof(device_config_t))` yields
as a logical record, reading each char array up to its terminator. -/
def deserializeConfig (bs : List Nat) : device_config_t :=
  { magic := rd32 bs 0, version := rd32 bs 4,
    wifi_ssid := rdStr bs 8 64, wifi_password := rdStr bs 72 64,
    wifi_mode := rd32 bs 136, mqtt_hostname := rdStr bs 140 64,
    mqtt_port := rd16 bs 204, mqtt_client_id := rdStr bs 206 64,
    mqtt_username := rdStr bs 270 32, mqtt_password := rdStr bs 302 64,
    telemetry_interval := rd32 bs 368, crc32 := rd32 bs 372 }

-- ---------------------------------------------------------------------
-- Process state: the EEPROM-emulation region (bytes, offset 0 being
-- EEPROM_START_ADDRESS), a flag modelling whether HAL flash programming
-- succeeds (false models policy-disabled or failing writes), the RAM
-- cache globals g_ram_config / g_ram_config_valid, and instrumentation
-- counters for medium accesses (they never influence behaviour).
-- ---------------------------------------------------------------------

structure SysState where
  medium : List Nat
  flashWriteOk : Bool
  g_ram_config : device_config_t
  g_ram_config_valid : Bool
  mediumReads : Nat
  mediumWrites : Nat
deriving Repr

/-- eeprom_write_data: unlock, program word by word, lock.  With
flashWriteOk every word programs and the bytes land at the given
offset; otherwise the first HAL_FLASH_Program call fails and the
medium is left unchanged. -/
def eeprom_write_data (st : SysState) (off : Nat) (data : List Nat) :
    Bool × SysState :=
  if st.flashWriteOk then
    (true, { st with
             medium := st.medium.take off ++ data ++ st.medium.drop (off + data.length),
             mediumWrites := st.mediumWrites + 1 })
  else
    (false, { st with mediumWrites := st.mediumWrites + 1 })

/-- eeprom_read_data: a direct memcpy from the flash region; it always
returns HAL_OK, so only the access counter changes (the data itself is
read off st.medium by the caller). -/
def eeprom_read_data (st : SysState) : SysState :=
  { st with mediumReads := st.mediumReads + 1 }

/-- eeprom_read_config: read and check magic, then version, then memcpy
the whole record.  No digest is checked.  (The CONFIG_ERROR_STORAGE
branches are dead because eeprom_read_data always returns HAL_OK.) -/
def eeprom_read_config (st : SysState) :
    config_result_t × Option device_config_t × SysState :=
  let st1 := eeprom_read_data st
  if rd32 st.medium 0 ≠ CONFIG_MAGIC then (CONFIG_ERROR_NOT_FOUND, none, st1)
  else
    let st2 := eeprom_read_data st1
    if rd32 st.medium 4 ≠ CONFIG_VERSION then (CONFIG_ERROR_NOT_FOUND, none, st2)
    else
      let st3 := eeprom_read_data st2
      (CONFIG_OK, some (deserializeConfig (st.medium.take CONFIG_STRUCT_SIZE)), st3)

/-- eeprom_write_config: stamp magic and version on a copy (the crc32
field is left exactly as the caller had it — no digest is recomputed)
and write the record bytes, without any sector erase. -/
def eeprom_write_config (st : SysState) (cfg : device_config_t) :
    config_result_t × SysState :=
  let copy := { cfg with magic := CONFIG_MAGIC, version := CONFIG_VERSION }
  let r := eeprom_write_data st 0 (configBytesFull copy)
  if r.1 then (CONFIG_OK, r.2) else (CONFIG_ERROR_STORAGE, r.2)

/-- eeprom_erase_config: write an all-zero record over the config area
(no sector erase). -/
def eeprom_erase_config (st : SysState) : config_result_t × SysState :=
  let r := eeprom_write_data st 0 (configBytesFull zero_config)
  if r.1 then (CONFIG_OK, r.2) else (CONFIG_ERROR_STORAGE, r.2)

-- ---------------------------------------------------------------------
-- Configuration manager operations (active preprocessor configuration:
-- FLASH_OPERATIONS_DISABLED = 1 with USE_EEPROM_EMULATION = 1).
-- ---------------------------------------------------------------------

/-- config_manager_load: try the EEPROM first; on success mirror into
the RAM cache and return the record; otherwise fall back to the RAM
cache; otherwise CONFIG_ERROR_NOT_FOUND (the out-buffer is untouched,
modelled as `none`). -/
def config_manager_load (st : SysState) :
    config_result_t × Option device_config_t × SysState :=
  match eeprom_read_config st with
  | (CONFIG_OK, some cfg, st1) =>
      (CONFIG_OK, some cfg,
       { st1 with g_ram_config := cfg, g_ram_config_valid := true })
  | (_, _, st1) =>
      if st1.g_ram_config_valid then (CONFIG_OK, some st1.g_ram_config, st1)
      else (CONFIG_ERROR_NOT_FOUND, none, st1)

/-- config_manager_save: a null pointer is rejected with
CONFIG_ERROR_INVALID and nothing changes; otherwise the EEPROM write is
attempted (its failure only logs a fallback message), the RAM cache is
always updated, and CONFIG_OK is always returned. -/
def config_manager_save (st : SysState) :
    Option device_config_t → config_result_t × SysState
  | none => (CONFIG_ERROR_INVALID, st)
  | some cfg =>
      let r := eeprom_write_config st cfg
      (CONFIG_OK,
       { r.2 with g_ram_config := cfg, g_ram_config_valid := true })

/-- config_manager_factory_reset (HEAD, USE_EEPROM_EMULATION): clear the
EEPROM (a failure only prints a warning), clear the RAM cache, and
return CONFIG_OK unconditionally. -/
def config_manager_factory_reset (st : SysState) : config_result_t × SysState :=
  let r := eeprom_erase_config st
  (CONFIG_OK,
   { r.2 with g_ram_config := zero_config, g_ram_config_valid := false })

/-- State-passing wrapper for config_manager_get_defaults: the C
function writes only through its out-pointer and reads no global or
medium state, so the process state passes through unchanged. -/
def config_manager_get_defaults_st (st : SysState) : device_config_t × SysState :=
  (config_manager_get_defaults, st)

-- ---------------------------------------------------------------------
-- Serial console input (read_string_from_serial / read_int_from_serial
-- in config_manager.c).  The console byte stream is a List Int; the C
-- function blocks forever if the operator never presses Enter, which in
-- this model corresponds to the input list running out (the value
-- accumulated so far is returned, which only strengthens the bound
-- theorems quantified over all inputs).
-- ---------------------------------------------------------------------

/-- The `while (index < max_len - 1)` loop of read_string_from_serial:
CR or LF terminates, backspace/DEL (8/127) drops the last character if
any, printable bytes 32..126 append, everything else is ignored.  When
the buffer is full the loop exits without consuming further input and
the final forced terminator keeps the string at max_len - 1 bytes. -/
def read_serial_loop (maxIdx : Nat) : List Char → List Int → List Char × List Int
  | acc, [] => (acc, [])
  | acc, c :: rest =>
      if maxIdx ≤ acc.length then (acc, c :: rest)
      else if c = 13 ∨ c = 10 then (acc, rest)
      else if c = 8 ∨ c = 127 then read_serial_loop maxIdx acc.dropLast rest
      else if 32 ≤ c ∧ c ≤ 126 then
        read_serial_loop maxIdx (acc ++ [Char.ofNat c.toNat]) rest
      else read_serial_loop maxIdx acc rest

def read_string_from_serial (maxLen : Nat) (input : List Int) :
    List Char × List Int :=
  read_serial_loop (maxLen - 1) [] input

/-- read_int_from_serial: a 16-byte line buffer; an empty line keeps the
default, otherwise atoi of the entered text (as uint32_t). -/
def read_int_from_serial (dflt : Nat) (input : List Int) : Nat × List Int :=
  let r := read_string_from_serial 16 input
  if r.1.length = 0 then (dflt, r.2) else (atoi_u32 r.1, r.2)

/-- One prompted text field of config_manager_prompt_and_store: read a
line bounded by the field capacity; a non-empty entry replaces the
current value via strncpy bounded to capacity - 1 plus a forced
terminator, an empty entry keeps the current value. -/
def promptField (cur : List Char) (cap : Nat) (input : List Int) :
    List Char × List Int :=
  let r := read_string_from_serial cap input
  if 0 < r.1.length then (r.1.take (cap - 1), r.2) else (cur, r.2)

/-- config_manager_prompt_and_store: start from the defaults, prompt
each field in order over the console stream, then save (which in this
revision always returns CONFIG_OK for a non-null record).  The uint16
mqtt_port assignment truncates the entered uint32. -/
def config_manager_prompt_and_store (st : SysState) (input : List Int) :
    config_result_t × device_config_t × SysState :=
  let cfg0 := config_manager_get_defaults
  let p1 := promptField cfg0.wifi_ssid CONFIG_SSID_MAX_LEN input
  let p2 := promptField cfg0.wifi_password CONFIG_PASSWORD_MAX_LEN p1.2
  let p3 := read_int_from_serial cfg0.wifi_mode p2.2
  let p4 := promptField cfg0.mqtt_hostname CONFIG_HOSTNAME_MAX_LEN p3.2
  let p5 := read_int_from_serial cfg0.mqtt_port p4.2
  let p6 := promptField cfg0.mqtt_client_id CONFIG_CLIENT_ID_MAX_LEN p5.2
  let p7 := promptField cfg0.mqtt_username CONFIG_USERNAME_MAX_LEN p6.2
  let p8 := promptField cfg0.mqtt_password CONFIG_PASSWORD_MAX_LEN p7.2
  let p9 := read_int_from_serial cfg0.telemetry_interval p8.2
  let cfg := { cfg0 with
    wifi_ssid := p1.1, wifi_password := p2.1, wifi_mode := p3.1,
    mqtt_hostname := p4.1, mqtt_port := p5.1 % 65536, mqtt_client_id := p6.1,
    mqtt_username := p7.1, mqtt_password := p8.1, telemetry_interval := p9.1 }
  let r := config_manager_save st (some cfg)
  (r.1, cfg, r.2)

/-- init_device_configuration (main.c): config_manager_check_reset_button
always returns false in this revision, so the reset branch is dead.  Try
config_manager_load; `keyPressed` models whether the operator pressed a
key within the 10 s window (config_manager_wait_for_user_input).  On a
key press the interactive setup runs; otherwise the loaded record is
used when load succeeded, and config_manager_get_defaults when it did
not. -/
def init_device_configuration (st : SysState) (keyPressed : Bool)
    (input : List Int) : device_config_t × SysState :=
  match config_manager_load st with
  | (CONFIG_OK, some cfg, st1) =>
      if keyPressed then
        let r := config_manager_prompt_and_store st1 input
        if r.1 = CONFIG_OK then (r.2.1, r.2.2) else (cfg, r.2.2)
      else (cfg, st1)
  | (_, _, st1) =>
      if keyPressed then
        let r := config_manager_prompt_and_store st1 input
        if r.1 = CONFIG_OK then (r.2.1, r.2.2)
        else (config_manager_get_defaults, r.2.2)
      else (config_manager_get_defaults, st1)

-- ---------------------------------------------------------------------
-- Concrete process states and records used by the counterexamples and
-- witnesses below.
-- ---------------------------------------------------------------------

/-- The medium header matches the schema gate of eeprom_read_config. -/
def medium_header_ok (st : SysState) : Prop :=
  rd32 st.medium 0 = CONFIG_MAGIC ∧ rd32 st.medium 4 = CONFIG_VERSION

instance (st : SysState) : Decidable (medium_header_ok st) := by
  unfold medium_header_ok; infer_instance

/-- A fresh boot with an erased flash region (all 0xFF) and no cached
record. -/
def st_blank : SysState :=
  { medium := List.replicate 376 255, flashWriteOk := true,
    g_ram_config := zero_config, g_ram_config_valid := false,
    mediumReads := 0, mediumWrites := 0 }

/-- Two persisted records identical except for the stored digest field. -/
def rec_digest5 : device_config_t :=
  { zero_config with
    magic := CONFIG_MAGIC, version := CONFIG_VERSION,
    wifi_ssid := ['A'], crc32 := 5 }

def rec_digest7 : device_config_t :=
  { rec_digest5 with crc32 := 7 }

def st_digest5 : SysState :=
  { st_blank with medium := configBytesFull rec_digest5 }

def st_digest7 : SysState :=
  { st_blank with medium := configBytesFull rec_digest7 }

/-- A record cached in RAM, distinct from the persisted one. -/
def recordA : device_config_t :=
  { zero_config with
    magic := CONFIG_MAGIC, version := CONFIG_VERSION,
    wifi_ssid := ['A'], telemetry_interval := 30 }

/-- A record persisted on the medium. -/
def recordB : device_config_t :=
  { zero_config with
    magic := CONFIG_MAGIC, version := CONFIG_VERSION,
    wifi_ssid := ['B'], telemetry_interval := 60 }

/-- Cache holds recordA while the medium persists recordB. -/
def st_both : SysState :=
  { medium := configBytesFull recordB, flashWriteOk := true,
    g_ram_config := recordA, g_ram_config_valid := true,
    mediumReads := 0, mediumWrites := 0 }

/-- A structurally invalid record (magic is 0, not CONFIG_MAGIC). -/
def bad_config : device_config_t :=
  { zero_config with wifi_ssid := ['X'] }

/-- recordB persisted, cached, and flash programming failing (the
write-disabled degraded mode). -/
def st_pre_reset : SysState :=
  { medium := configBytesFull recordB, flashWriteOk := false,
    g_ram_config := recordB, g_ram_config_valid := true,
    mediumReads := 0, mediumWrites := 0 }

/-- Same, but with flash programming working. -/
def st_pre_reset_ok : SysState :=
  { st_pre_reset with flashWriteOk := true }

/-- An operationally incomplete record: everything filled except that
the telemetry interval is 0. -/
def rec_interval0 : device_config_t :=
  { fallback_defaults with telemetry_interval := 0 }

/-- All char-array fields of the record hold their terminator strictly
within the declared capacity: at most capacity - 1 content bytes. -/
def text_fields_bounded (c : device_config_t) : Prop :=
  c.wifi_ssid.length ≤ CONFIG_SSID_MAX_LEN - 1 ∧
  c.wifi_password.length ≤ CONFIG_PASSWORD_MAX_LEN - 1 ∧
  c.mqtt_hostname.length ≤ CONFIG_HOSTNAME_MAX_LEN - 1 ∧
  c.mqtt_client_id.length ≤ CONFIG_CLIENT_ID_MAX_LEN - 1 ∧
  c.mqtt_username.length ≤ CONFIG_USERNAME_MAX_LEN - 1 ∧
  c.mqtt_password.length ≤ CONFIG_PASSWORD_MAX_LEN - 1

instance (c : device_config_t) : Decidable (text_fields_bounded c) := by
  unfold text_fields_bounded; infer_instance

/-- A hypothetical embedded blob that sets mqtt_port but not wifi_mode. -/
def blob_port_only : List Char := "mqtt_port=8883\n".data

-- ---------------------------------------------------------------------
-- Helper lemmas shared by the claim theorems.
-- ---------------------------------------------------------------------

open config_result_t

lemma eeprom_read_config_ok (st : SysState)
    (h1 : rd32 st.medium 0 = CONFIG_MAGIC) (h2 : rd32 st.medium 4 = CONFIG_VERSION) :
    eeprom_read_config st =
      (CONFIG_OK, some (deserializeConfig (st.medium.take CONFIG_STRUCT_SIZE)),
       { st with mediumReads := st.mediumReads + 1 + 1 + 1 }) := by
  unfold eeprom_read_config eeprom_read_data
  rw [if_neg (by simp [h1]), if_neg (by simp [h2])]

lemma eeprom_read_config_fail (st : SysState)
    (h : ¬ medium_header_ok st) :
    ((eeprom_read_config st).1 = CONFIG_ERROR_NOT_FOUND) ∧
    ((eeprom_read_config st).2.1 = none) ∧
    ((eeprom_read_config st).2.2.medium = st.medium) ∧
    ((eeprom_read_config st).2.2.flashWriteOk = st.flashWriteOk) ∧
    ((eeprom_read_config st).2.2.g_ram_config = st.g_ram_config) ∧
    ((eeprom_read_config st).2.2.g_ram_config_valid = st.g_ram_config_valid) ∧
    (st.mediumReads < (eeprom_read_config st).2.2.mediumReads) := by
  unfold medium_header_ok at h
  unfold eeprom_read_config eeprom_read_data
  by_cases h1 : rd32 st.medium 0 = CONFIG_MAGIC
  · have h2 : rd32 st.medium 4 ≠ CONFIG_VERSION := fun h2 => h ⟨h1, h2⟩
    rw [if_neg (by simp [h1]), if_pos h2]
    refine ⟨rfl, rfl, rfl, rfl, rfl, rfl, ?_⟩
    dsimp only
    omega
  · rw [if_pos h1]
    simp

lemma config_manager_load_ok (st : SysState)
    (h1 : rd32 st.medium 0 = CONFIG_MAGIC) (h2 : rd32 st.medium 4 = CONFIG_VERSION) :
    config_manager_load st =
      (CONFIG_OK, some (deserializeConfig (st.medium.take CONFIG_STRUCT_SIZE)),
       { st with mediumReads := st.mediumReads + 1 + 1 + 1,
                 g_ram_config := deserializeConfig (st.medium.take CONFIG_STRUCT_SIZE),
                 g_ram_config_valid := true }) := by
  unfold config_manager_load
  rw [eeprom_read_config_ok st h1 h2]

lemma config_manager_load_fail (st : SysState) (h : ¬ medium_header_ok st) :
    config_manager_load st =
      (if st.g_ram_config_valid then CONFIG_OK else CONFIG_ERROR_NOT_FOUND,
       if st.g_ram_config_valid then some st.g_ram_config else none,
       (eeprom_read_config st).2.2) := by
  unfold config_manager_load
  obtain ⟨hr, ho, hm, hf, hg, hv, hlt⟩ := eeprom_read_config_fail st h
  rcases hE : eeprom_read_config st with ⟨r, o, st1⟩
  rw [hE] at hr ho hm hf hg hv hlt
  dsimp only at hr ho hm hf hg hv hlt
  subst hr; subst ho
  dsimp only
  rw [hv, hg]
  by_cases hval : st.g_ram_config_valid <;> simp [hval]

lemma fieldBytes_length (s : List Char) (cap : Nat) : (fieldBytes s cap).length = cap := by
  simp [fieldBytes]

lemma configBytesFull_length (c : device_config_t) :
    (configBytesFull c).length = CONFIG_STRUCT_SIZE := by
  simp [configBytesFull, configBytes, le32, le16, fieldBytes_length,
        CONFIG_STRUCT_SIZE]

lemma getD_replicate_zero (n i : Nat) (h : i < n) :
    (List.replicate n (0 : Nat)).getD i 0 = 0 := by
  simp [List.getD, List.getElem?_replicate, h]

lemma rd32_zero_block (rest : List Nat) :
    rd32 (List.replicate 376 0 ++ rest) 0 = 0 := by
  unfold rd32 rdByte
  rw [List.getD_append _ _ _ _ (by rw [List.length_replicate]; omega),
      List.getD_append _ _ _ _ (by rw [List.length_replicate]; omega),
      List.getD_append _ _ _ _ (by rw [List.length_replicate]; omega),
      List.getD_append _ _ _ _ (by rw [List.length_replicate]; omega)]
  rw [getD_replicate_zero 376 0 (by omega), getD_replicate_zero 376 1 (by omega),
      getD_replicate_zero 376 2 (by omega), getD_replicate_zero 376 3 (by omega)]

-- =====================================================================
-- Claim C1
-- =====================================================================

/-- Claim C1, counterexample: with an erased medium (all 0xFF) and an
empty RAM cache, config_manager_load returns CONFIG_ERROR_NOT_FOUND and
yields no configuration record at all, so `load()` does not always
return a value: the defaults tier is not inside load. -/
theorem C1_counterexample :
    (config_manager_load st_blank).1 = CONFIG_ERROR_NOT_FOUND
    ∧ (config_manager_load st_blank).2.1 = none := by
  decide

/-- Claim C1, amended: config_manager_load itself either succeeds (from
the medium or the RAM cache) or returns CONFIG_ERROR_NOT_FOUND with no
record; the defaults fallback lives in the caller,
init_device_configuration, whose no-operator-input path substitutes
config_manager_get_defaults whenever load fails, so the boot flow (not
load alone) always obtains a configuration. -/
theorem C1_amended_load_fallback (st : SysState) :
    (config_manager_load st).1 = CONFIG_OK
    ∨ ((config_manager_load st).1 = CONFIG_ERROR_NOT_FOUND
       ∧ (init_device_configuration st false []).1 = config_manager_get_defaults) := by
  by_cases h : medium_header_ok st
  · left
    rw [config_manager_load_ok st h.1 h.2]
  · rw [config_manager_load_fail st h]
    by_cases hval : st.g_ram_config_valid
    · left; simp [hval]
    · right
      refine ⟨by simp [hval], ?_⟩
      unfold init_device_configuration
      rw [config_manager_load_fail st h]
      simp [hval]

/-- Claim C1, witness: the amended theorem evaluated at the erased-flash
boot state. -/
theorem C1_amended_load_fallback_witness :
    (config_manager_load st_blank).1 = CONFIG_OK
    ∨ ((config_manager_load st_blank).1 = CONFIG_ERROR_NOT_FOUND
       ∧ (init_device_configuration st_blank false []).1 = config_manager_get_defaults) :=
  C1_amended_load_fallback st_blank

-- =====================================================================
-- Claim C3
-- =====================================================================

/-- Claim C3, counterexample: a state whose RAM cache holds recordA
while the medium persists recordB.  load does not return the cached
value and does not stay away from the medium: it returns the medium's
recordB and performs three medium reads. -/
theorem C3_counterexample :
    st_both.g_ram_config_valid = true
    ∧ (config_manager_load st_both).2.1 = some recordB
    ∧ recordB ≠ recordA
    ∧ (config_manager_load st_both).2.2.mediumReads = 3 := by
  decide

/-- Claim C3, amended: config_manager_load consults the medium first on
every call and uses the RAM cache only as a fallback; a second load
still returns an identical result and record (so load is idempotent in
value), but it performs at least one further medium access rather than
zero. -/
theorem C3_amended_idempotent_value (st : SysState) :
    ((config_manager_load (config_manager_load st).2.2).1 = (config_manager_load st).1)
    ∧ ((config_manager_load (config_manager_load st).2.2).2.1 = (config_manager_load st).2.1)
    ∧ ((config_manager_load st).2.2.mediumReads <
       (config_manager_load (config_manager_load st).2.2).2.2.mediumReads) := by
  by_cases h : medium_header_ok st
  · rw [config_manager_load_ok st h.1 h.2]
    dsimp only
    rw [config_manager_load_ok
      { st with mediumReads := st.mediumReads + 1 + 1 + 1,
                g_ram_config := deserializeConfig (st.medium.take CONFIG_STRUCT_SIZE),
                g_ram_config_valid := true } h.1 h.2]
    refine ⟨rfl, rfl, ?_⟩
    dsimp only
    omega
  · have hfail := config_manager_load_fail st h
    rw [hfail]
    obtain ⟨hr, ho, hm, hf, hg, hv, hlt⟩ := eeprom_read_config_fail st h
    have h' : ¬ medium_header_ok (eeprom_read_config st).2.2 := by
      unfold medium_header_ok at h ⊢
      rw [hm]; exact h
    rw [config_manager_load_fail _ h']
    obtain ⟨hr2, ho2, hm2, hf2, hg2, hv2, hlt2⟩ :=
      eeprom_read_config_fail (eeprom_read_config st).2.2 h'
    dsimp only
    rw [hv, hg]
    exact ⟨rfl, rfl, hlt2⟩

/-- Claim C3, witness: the amended theorem evaluated at the cache-plus-
medium state. -/
theorem C3_amended_idempotent_value_witness :
    ((config_manager_load (config_manager_load st_both).2.2).1 = (config_manager_load st_both).1)
    ∧ ((config_manager_load (config_manager_load st_both).2.2).2.1 = (config_manager_load st_both).2.1)
    ∧ ((config_manager_load st_both).2.2.mediumReads <
       (config_manager_load (config_manager_load st_both).2.2).2.2.mediumReads) :=
  C3_amended_idempotent_value st_both

-- =====================================================================
-- Claim C2
-- =====================================================================

set_option maxRecDepth 100000

/-- Claim C2, counterexample: the active persistent path neither
recomputes nor checks the digest.  Two persisted records identical
except for their stored crc32 field (5 and 7) are both returned as
CONFIG_OK by eeprom_read_config; since their digest-covered bytes are
equal, at least one of them fails the digest check yet is returned.
On the write side, eeprom_write_config stores the caller's stale crc32
field verbatim (5 resp. 7 at offset 372) instead of a recomputed
digest, although the digest-covered content of both records is
identical. -/
theorem C2_counterexample :
    ((eeprom_read_config st_digest5).1 = CONFIG_OK
      ∧ (eeprom_read_config st_digest5).2.1 = some rec_digest5)
    ∧ ((eeprom_read_config st_digest7).1 = CONFIG_OK
      ∧ (eeprom_read_config st_digest7).2.1 = some rec_digest7)
    ∧ configBytes rec_digest5 = configBytes rec_digest7
    ∧ (rec_digest5.crc32 ≠ calculate_crc32 (configBytes rec_digest5)
       ∨ rec_digest7.crc32 ≠ calculate_crc32 (configBytes rec_digest7))
    ∧ rd32 (eeprom_write_config st_blank rec_digest5).2.medium 372 = 5
    ∧ rd32 (eeprom_write_config st_blank rec_digest7).2.medium 372 = 7 := by
  refine ⟨⟨by decide, by decide⟩, ⟨by decide, by decide⟩, by decide, ?_, by decide, by decide⟩
  by_cases h : calculate_crc32 (configBytes rec_digest5) = 5
  · right
    have hb : configBytes rec_digest7 = configBytes rec_digest5 := by decide
    rw [hb, h]
    decide
  · left
    exact fun he => h he.symm

/-- Claim C2, amended: the active persistent path gates reads on
schema_magic and schema_version only — whenever both match, the stored
record is returned with no digest check at all (a record whose crc32
field mismatches its payload is returned rather than treated as
absent) — and the write path stores the record with magic and version
stamped but the crc32 field taken verbatim from the caller, not
recomputed. -/
theorem C2_amended_no_digest_gate (st : SysState)
    (h1 : rd32 st.medium 0 = CONFIG_MAGIC) (h2 : rd32 st.medium 4 = CONFIG_VERSION) :
    ((eeprom_read_config st).1 = CONFIG_OK
      ∧ (eeprom_read_config st).2.1 =
          some (deserializeConfig (st.medium.take CONFIG_STRUCT_SIZE)))
    ∧ (∀ cfg, st.flashWriteOk = true →
        (eeprom_write_config st cfg).2.medium =
          configBytesFull { cfg with magic := CONFIG_MAGIC, version := CONFIG_VERSION }
            ++ st.medium.drop CONFIG_STRUCT_SIZE) := by
  constructor
  · rw [eeprom_read_config_ok st h1 h2]
    exact ⟨rfl, rfl⟩
  · intro cfg hOk
    unfold eeprom_write_config eeprom_write_data
    dsimp only
    rw [if_pos hOk]
    dsimp only
    rw [List.take_zero, List.nil_append, Nat.zero_add, configBytesFull_length]
    rw [if_pos rfl]

/-- Claim C2, witness: the amended theorem evaluated at the medium
persisting rec_digest5 (whose stored digest field is the stale value
5). -/
theorem C2_amended_no_digest_gate_witness :
    ((eeprom_read_config st_digest5).1 = CONFIG_OK
      ∧ (eeprom_read_config st_digest5).2.1 =
          some (deserializeConfig (st_digest5.medium.take CONFIG_STRUCT_SIZE)))
    ∧ (∀ cfg, st_digest5.flashWriteOk = true →
        (eeprom_write_config st_digest5 cfg).2.medium =
          configBytesFull { cfg with magic := CONFIG_MAGIC, version := CONFIG_VERSION }
            ++ st_digest5.medium.drop CONFIG_STRUCT_SIZE) :=
  C2_amended_no_digest_gate st_digest5 (by decide) (by decide)

-- =====================================================================
-- Claim C4
-- =====================================================================

/-- Claim C4, counterexample: a record with magic 0 is structurally
invalid (config_manager_validate rejects it), yet config_manager_save
accepts it with CONFIG_OK and installs it in the RAM cache: save
performs no structural validation beyond the null check. -/
theorem C4_counterexample :
    config_manager_validate (some bad_config) = false
    ∧ (config_manager_save st_blank (some bad_config)).1 = CONFIG_OK
    ∧ (config_manager_save st_blank (some bad_config)).2.g_ram_config = bad_config
    ∧ (config_manager_save st_blank (some bad_config)).2.g_ram_config_valid = true := by
  decide

/-- Claim C4, amended: config_manager_save rejects only a null record
(CONFIG_ERROR_INVALID, state untouched); any non-null record —
structurally valid or not — is accepted: the backend write is attempted,
the RAM cache is updated unconditionally, and CONFIG_OK is returned
regardless of whether the backend write succeeded. -/
theorem C4_amended_save_null_only (st : SysState) (cfg : device_config_t) :
    config_manager_save st none = (CONFIG_ERROR_INVALID, st)
    ∧ (config_manager_save st (some cfg)).1 = CONFIG_OK
    ∧ (config_manager_save st (some cfg)).2.g_ram_config = cfg
    ∧ (config_manager_save st (some cfg)).2.g_ram_config_valid = true := by
  refine ⟨rfl, ?_, ?_, ?_⟩ <;>
    · unfold config_manager_save eeprom_write_config eeprom_write_data
      by_cases hOk : st.flashWriteOk <;> simp [hOk]

/-- Claim C4, witness: the amended theorem evaluated at the erased-flash
state and the structurally invalid record. -/
theorem C4_amended_save_null_only_witness :
    config_manager_save st_blank none = (CONFIG_ERROR_INVALID, st_blank)
    ∧ (config_manager_save st_blank (some bad_config)).1 = CONFIG_OK
    ∧ (config_manager_save st_blank (some bad_config)).2.g_ram_config = bad_config
    ∧ (config_manager_save st_blank (some bad_config)).2.g_ram_config_valid = true :=
  C4_amended_save_null_only st_blank bad_config

-- =====================================================================
-- Claim C5
-- =====================================================================

lemma factory_reset_medium_fail (st : SysState) (h : st.flashWriteOk = false) :
    (config_manager_factory_reset st).2.medium = st.medium := by
  unfold config_manager_factory_reset eeprom_erase_config eeprom_write_data
  rw [h]
  rfl

lemma factory_reset_medium_ok (st : SysState) (h : st.flashWriteOk = true) :
    (config_manager_factory_reset st).2.medium =
      List.replicate 376 0 ++ st.medium.drop 376 := by
  unfold config_manager_factory_reset eeprom_erase_config eeprom_write_data
  rw [h]
  dsimp only
  rw [if_pos rfl]
  dsimp only
  rw [List.take_zero, List.nil_append, Nat.zero_add, configBytesFull_length]
  rw [show configBytesFull zero_config = List.replicate 376 0 from by decide]
  rfl

/-- Claim C5, counterexample: with flash programming failing (the
degraded write-disabled mode the claim highlights), factory_reset still
reports CONFIG_OK and clears the RAM cache, but the medium keeps the
pre-reset record, and — because load consults the medium before the
(now empty) cache — the subsequent load returns the pre-reset persisted
recordB, not the defaults. -/
theorem C5_counterexample :
    (config_manager_factory_reset st_pre_reset).1 = CONFIG_OK
    ∧ (config_manager_factory_reset st_pre_reset).2.g_ram_config_valid = false
    ∧ (config_manager_load (config_manager_factory_reset st_pre_reset).2).2.1 = some recordB
    ∧ recordB ≠ config_manager_get_defaults := by
  decide

/-- Claim C5, amended: config_manager_factory_reset always returns
CONFIG_OK and clears the RAM cache to the absent state; when the erase
write fails (disabled/failing flash programming) the medium is left
unchanged, so the next load returns the pre-reset persisted record
rather than regenerating defaults; only when the erase write succeeds
does the next load fall through with CONFIG_ERROR_NOT_FOUND, whereupon
the caller init_device_configuration regenerates the defaults. -/
theorem C5_amended_reset_degraded (st : SysState) :
    (config_manager_factory_reset st).1 = CONFIG_OK
    ∧ (config_manager_factory_reset st).2.g_ram_config_valid = false
    ∧ (st.flashWriteOk = false → (config_manager_factory_reset st).2.medium = st.medium)
    ∧ (st.flashWriteOk = true →
        (config_manager_load (config_manager_factory_reset st).2).1 = CONFIG_ERROR_NOT_FOUND
        ∧ (init_device_configuration (config_manager_factory_reset st).2 false []).1
            = config_manager_get_defaults) := by
  refine ⟨rfl, rfl, factory_reset_medium_fail st, ?_⟩
  intro hOk
  have h' : ¬ medium_header_ok (config_manager_factory_reset st).2 := by
    unfold medium_header_ok
    rw [factory_reset_medium_ok st hOk, rd32_zero_block]
    rintro ⟨ha, -⟩
    exact absurd ha (by decide)
  have hval : (config_manager_factory_reset st).2.g_ram_config_valid = false := rfl
  constructor
  · rw [config_manager_load_fail _ h']
    simp [hval]
  · unfold init_device_configuration
    rw [config_manager_load_fail _ h']
    simp [hval]

/-- Claim C5, witness: the amended theorem at the pre-reset states, with
flash programming failing resp. succeeding. -/
theorem C5_amended_reset_degraded_witness :
    (config_manager_factory_reset st_pre_reset).1 = CONFIG_OK
    ∧ (config_manager_factory_reset st_pre_reset).2.medium = st_pre_reset.medium
    ∧ (config_manager_load (config_manager_factory_reset st_pre_reset_ok).2).1
        = CONFIG_ERROR_NOT_FOUND
    ∧ (init_device_configuration (config_manager_factory_reset st_pre_reset_ok).2 false []).1
        = config_manager_get_defaults :=
  ⟨(C5_amended_reset_degraded st_pre_reset).1,
   (C5_amended_reset_degraded st_pre_reset).2.2.1 rfl,
   ((C5_amended_reset_degraded st_pre_reset_ok).2.2.2 rfl).1,
   ((C5_amended_reset_degraded st_pre_reset_ok).2.2.2 rfl).2⟩

-- =====================================================================
-- Claim C6
-- =====================================================================

/-- Claim C6: config_manager_get_defaults layers the compiled-in
fallback constants first and parses the embedded blob on top, the blob
winning per field; for a blob that sets only mqtt_port to 8883, the
produced default record is exactly the fallback record with mqtt_port
replaced — in particular it has the blob's mqtt_port (8883, overriding
the fallback 1883) and the compiled fallback's wifi_mode. -/
theorem C6_defaults_layering :
    config_manager_get_defaults = parse_config_file fallback_defaults embedded_device_conf
    ∧ config_manager_get_defaults_from blob_port_only
        = { fallback_defaults with mqtt_port := 8883 }
    ∧ (config_manager_get_defaults_from blob_port_only).mqtt_port = 8883
    ∧ (config_manager_get_defaults_from blob_port_only).wifi_mode = fallback_defaults.wifi_mode
    ∧ fallback_defaults.mqtt_port ≠ 8883 := by
  exact ⟨rfl, by decide, by decide, by decide, by decide⟩

-- =====================================================================
-- Claim C7
-- =====================================================================

/-- Claim C7: a record with telemetry interval 0 or 3601 (and the
required text fields present, magic and version correct) fails the
operational tier validate_config — which demands non-empty wifi_ssid,
mqtt_hostname and mqtt_client_id and an interval within [1, 3600] —
while passing the structural tier config_manager_validate: the two
tiers are distinct predicates. -/
theorem C7_two_tier_validation (cfg : device_config_t)
    (hm : cfg.magic = CONFIG_MAGIC) (hv : cfg.version = CONFIG_VERSION)
    (hs : cfg.wifi_ssid.length ≠ 0) (hh : cfg.mqtt_hostname.length ≠ 0)
    (hc : cfg.mqtt_client_id.length ≠ 0)
    (hi : cfg.telemetry_interval = 0 ∨ cfg.telemetry_interval = 3601) :
    validate_config (some cfg) = false ∧ config_manager_validate (some cfg) = true := by
  constructor
  · unfold validate_config
    dsimp only
    rw [if_neg hs, if_neg hh, if_neg hc,
        if_pos (by rcases hi with hi | hi <;> simp [hi])]
  · unfold config_manager_validate
    dsimp only
    rw [if_neg (by push_neg; exact ⟨hm, hv⟩)]

/-- Claim C7, witness: the defaults record with its telemetry interval
zeroed out fails the operational tier but passes the structural tier. -/
theorem C7_two_tier_validation_witness :
    validate_config (some rec_interval0) = false
    ∧ config_manager_validate (some rec_interval0) = true :=
  C7_two_tier_validation rec_interval0 (by decide) (by decide) (by decide)
    (by decide) (by decide) (Or.inl (by decide))

-- =====================================================================
-- Claim C8
-- =====================================================================

/-- Claim C8: line discipline of the embedded-config parser.  A line
that trims to nothing (blank) or to a `#`-comment changes nothing; a
line without `=` changes nothing; the parse always continues with the
remaining lines after any line (so a bad line skips only itself); an
unknown key changes nothing; and whitespace is trimmed from both key
and value while a final line with no trailing newline is still
processed (the last conjunct exercises both on a blob whose only line
has padding around key and value and no newline). -/
theorem C8_parser_line_discipline :
    (∀ cfg line, trim_string line = [] → applyConfigLine cfg line = cfg)
    ∧ (∀ cfg line rest, trim_string line = '#' :: rest → applyConfigLine cfg line = cfg)
    ∧ (∀ cfg line, strchrEq (trim_string line) = none → applyConfigLine cfg line = cfg)
    ∧ (∀ cfg l ls, parse_lines cfg (l :: ls) = parse_lines (applyConfigLine cfg l) ls)
    ∧ (∀ cfg line k v, strchrEq (trim_string line) = some (k, v) →
        trim_string k ∉ known_config_keys → applyConfigLine cfg line = cfg)
    ∧ (∀ cfg, parse_config_file cfg "  mqtt_port  =  8883".data
        = { cfg with mqtt_port := 8883 }) := by
  refine ⟨?_, ?_, ?_, ?_, ?_, ?_⟩
  · intro cfg line h
    simp [applyConfigLine, h]
  · intro cfg line rest h
    simp [applyConfigLine, h]
  · intro cfg line h
    simp [applyConfigLine, h, ite_self]
  · intro cfg l ls
    rfl
  · intro cfg line k v h1 h2
    simp only [known_config_keys, List.mem_cons, List.not_mem_nil, or_false, not_or] at h2
    obtain ⟨n1, n2, n3, n4, n5, n6, n7, n8, n9⟩ := h2
    simp [applyConfigLine, applyConfigKV, h1, n1, n2, n3, n4, n5, n6, n7, n8, n9, ite_self]
  · intro cfg
    rfl

/-- Claim C8, witness: the parser tolerances evaluated on concrete
lines over the fallback defaults record. -/
theorem C8_parser_line_discipline_witness :
    applyConfigLine fallback_defaults "   ".data = fallback_defaults
    ∧ applyConfigLine fallback_defaults "# a comment".data = fallback_defaults
    ∧ applyConfigLine fallback_defaults "garbage line".data = fallback_defaults
    ∧ parse_lines fallback_defaults ["garbage line".data, "mqtt_port=8883".data]
        = parse_lines (applyConfigLine fallback_defaults "garbage line".data)
            ["mqtt_port=8883".data]
    ∧ applyConfigLine fallback_defaults "unknown_key=5".data = fallback_defaults
    ∧ parse_config_file fallback_defaults "  mqtt_port  =  8883".data
        = { fallback_defaults with mqtt_port := 8883 } :=
  ⟨C8_parser_line_discipline.1 fallback_defaults "   ".data (by decide),
   C8_parser_line_discipline.2.1 fallback_defaults "# a comment".data " a comment".data
     (by decide),
   C8_parser_line_discipline.2.2.1 fallback_defaults "garbage line".data (by decide),
   C8_parser_line_discipline.2.2.2.1 fallback_defaults "garbage line".data
     ["mqtt_port=8883".data],
   C8_parser_line_discipline.2.2.2.2.1 fallback_defaults "unknown_key=5".data
     "unknown_key".data "5".data (by decide) (by decide),
   C8_parser_line_discipline.2.2.2.2.2 fallback_defaults⟩

-- =====================================================================
-- Claim C9
-- =====================================================================

/-- Claim C9: config_manager_get_defaults is pure apart from parsing the
embedded blob — in the state-passing reading it returns the layered
defaults record and passes the process state (medium bytes, RAM cache
contents and validity flag, access counters) through unchanged. -/
theorem C9_get_defaults_frame (st : SysState) :
    (config_manager_get_defaults_st st).2 = st
    ∧ (config_manager_get_defaults_st st).1
        = parse_config_file fallback_defaults embedded_device_conf
    ∧ (config_manager_get_defaults_st st).2.g_ram_config = st.g_ram_config
    ∧ (config_manager_get_defaults_st st).2.g_ram_config_valid = st.g_ram_config_valid
    ∧ (config_manager_get_defaults_st st).2.medium = st.medium
    ∧ (config_manager_get_defaults_st st).2.mediumReads = st.mediumReads
    ∧ (config_manager_get_defaults_st st).2.mediumWrites = st.mediumWrites :=
  ⟨rfl, rfl, rfl, rfl, rfl, rfl, rfl⟩

/-- Claim C9, witness: the frame theorem at a state with a populated
cache and medium. -/
theorem C9_get_defaults_frame_witness :
    (config_manager_get_defaults_st st_both).2 = st_both
    ∧ (config_manager_get_defaults_st st_both).1
        = parse_config_file fallback_defaults embedded_device_conf
    ∧ (config_manager_get_defaults_st st_both).2.g_ram_config = st_both.g_ram_config
    ∧ (config_manager_get_defaults_st st_both).2.g_ram_config_valid = st_both.g_ram_config_valid
    ∧ (config_manager_get_defaults_st st_both).2.medium = st_both.medium
    ∧ (config_manager_get_defaults_st st_both).2.mediumReads = st_both.mediumReads
    ∧ (config_manager_get_defaults_st st_both).2.mediumWrites = st_both.mediumWrites :=
  C9_get_defaults_frame st_both

-- =====================================================================
-- Claim C10
-- =====================================================================

lemma applyConfigKV_bounded (cfg : device_config_t) (k v : List Char)
    (h : text_fields_bounded cfg) : text_fields_bounded (applyConfigKV cfg k v) := by
  obtain ⟨b1, b2, b3, b4, b5, b6⟩ := h
  unfold applyConfigKV
  split_ifs <;>
    exact ⟨by first | assumption | exact List.length_take_le _ _,
           by first | assumption | exact List.length_take_le _ _,
           by first | assumption | exact List.length_take_le _ _,
           by first | assumption | exact List.length_take_le _ _,
           by first | assumption | exact List.length_take_le _ _,
           by first | assumption | exact List.length_take_le _ _⟩

lemma applyConfigLine_bounded (cfg : device_config_t) (line : List Char)
    (h : text_fields_bounded cfg) :
    text_fields_bounded (applyConfigLine cfg line) := by
  unfold applyConfigLine
  dsimp only
  by_cases hA : (trim_string line).length = 0
  · rw [if_pos hA]; exact h
  · rw [if_neg hA]
    by_cases hB : (trim_string line).headD ' ' = '#'
    · rw [if_pos hB]; exact h
    · rw [if_neg hB]
      cases hsp : strchrEq (trim_string line) with
      | none => exact h
      | some p =>
          obtain ⟨k, v⟩ := p
          exact applyConfigKV_bounded cfg (trim_string k) (trim_string v) h

lemma parse_lines_bounded (ls : List (List Char)) (cfg : device_config_t)
    (h : text_fields_bounded cfg) : text_fields_bounded (parse_lines cfg ls) := by
  induction ls generalizing cfg with
  | nil => exact h
  | cons l ls ih => exact ih _ (applyConfigLine_bounded _ _ h)

lemma read_serial_loop_len (input : List Int) : ∀ acc maxIdx, acc.length ≤ maxIdx →
    (read_serial_loop maxIdx acc input).1.length ≤ maxIdx := by
  induction input with
  | nil => intro acc maxIdx h; exact h
  | cons c rest ih =>
      intro acc maxIdx h
      unfold read_serial_loop
      split_ifs with h1 h2 h3 h4
      · exact h
      · exact h
      · exact ih _ _ (by simp [List.length_dropLast]; omega)
      · exact ih _ _ (by simp; omega)
      · exact ih _ _ h

lemma read_string_from_serial_len (maxLen : Nat) (input : List Int) :
    (read_string_from_serial maxLen input).1.length ≤ maxLen - 1 :=
  read_serial_loop_len input [] (maxLen - 1) (by simp)

lemma promptField_len (cur : List Char) (cap : Nat) (input : List Int)
    (h : cur.length ≤ cap - 1) : (promptField cur cap input).1.length ≤ cap - 1 := by
  unfold promptField
  dsimp only
  split_ifs with h1
  · exact List.length_take_le _ _
  · exact h

lemma prompt_and_store_bounded (st : SysState) (input : List Int)
    (hd : text_fields_bounded config_manager_get_defaults) :
    text_fields_bounded (config_manager_prompt_and_store st input).2.1 := by
  obtain ⟨d1, d2, d3, d4, d5, d6⟩ := hd
  unfold config_manager_prompt_and_store text_fields_bounded
  dsimp only
  exact ⟨promptField_len _ _ _ d1, promptField_len _ _ _ d2, promptField_len _ _ _ d3,
         promptField_len _ _ _ d4, promptField_len _ _ _ d5, promptField_len _ _ _ d6⟩

/-- Claim C10: every operation that fills a text field keeps the field
within capacity - 1 content bytes, leaving room for the terminator
strictly within the declared capacity: the layered defaults record is
bounded; parsing any blob over any bounded record stays bounded; the
serial line reader never returns more than max_len - 1 bytes for any
console byte stream; and the record produced by the interactive prompt
is bounded for any console byte stream. -/
theorem C10_text_field_bounds :
    text_fields_bounded config_manager_get_defaults
    ∧ (∀ cfg content, text_fields_bounded cfg →
        text_fields_bounded (parse_config_file cfg content))
    ∧ (∀ maxLen input, (read_string_from_serial maxLen input).1.length ≤ maxLen - 1)
    ∧ (∀ st input, text_fields_bounded (config_manager_prompt_and_store st input).2.1) := by
  have hfb : text_fields_bounded fallback_defaults := by decide
  have hd : text_fields_bounded config_manager_get_defaults :=
    parse_lines_bounded (splitCLines embedded_device_conf) fallback_defaults hfb
  exact ⟨hd, fun cfg content h => parse_lines_bounded _ _ h,
         fun maxLen input => read_string_from_serial_len maxLen input,
         fun st input => prompt_and_store_bounded st input hd⟩

/-- Claim C10, witness: the bounds evaluated at a concrete blob, a
concrete console stream, and a concrete prompting session. -/
theorem C10_text_field_bounds_witness :
    text_fields_bounded (parse_config_file fallback_defaults "wifi_ssid=abc".data)
    ∧ (read_string_from_serial 16 [65, 66, 13]).1.length ≤ 15
    ∧ text_fields_bounded (config_manager_prompt_and_store st_blank [90, 13]).2.1 :=
  ⟨C10_text_field_bounds.2.1 fallback_defaults "wifi_ssid=abc".data
     (by decide : text_fields_bounded fallback_defaults),
   C10_text_field_bounds.2.2.1 16 [65, 66, 13],
   C10_text_field_bounds.2.2.2 st_blank [90, 13]⟩

end AZ3166
